import Mathlib

/-!
Shallow embedding of the grab spider scheduler (src/grab/spider/base.py):
the Task and Result data model, the limit checks, the cache short-circuit,
one iteration of the main loop of get_next_response, the response router
process_response and the handler-error policy.  Counter increments and item
records (inc_count and add_item, provided by the SpiderStat mixin that is
outside src/) are emitted as events in a trace instead of being stored, so
every step function returns the list of observable events it produced.
-/

namespace GrabSpider

/-- Modelled from the spec: the request configuration dictionary of the
external HTTP client (the grab library is an external collaborator).  The
field `method` stands for the request-method detection that the client
performs (detect_request_method); `commonHeaders` and `userAgent` are the two
entries the scheduler overwrites before every dispatch (base.py lines
352-355). -/
structure GrabConfig where
  url : String
  method : String
  userAgent : Option String
  commonHeaders : List (String × String)
deriving DecidableEq, Repr

/-- Request method as detected by the external client for a configuration. -/
def GrabConfig.detectRequestMethod (g : GrabConfig) : String := g.method

/-- Modelled from the spec: the Task descriptor (grab/spider/task.py is not
under src/): handler name, url, priority, the two retry counters and the
per-task flags consulted by the scheduler. -/
structure Task where
  name : String
  url : String
  priority : Option Nat
  networkTryCount : Nat
  taskTryCount : Nat
  grabConfig : Option GrabConfig
  refreshCache : Bool
  disableCache : Bool
  validStatus : List Nat
deriving DecidableEq, Repr

/-- Modelled from the spec: the external HTTP client object as the scheduler
observes it once a fetch (or a cache load) has completed: its configuration,
the request method it recorded at prepare_request time, and the response. -/
structure Grab where
  config : GrabConfig
  requestMethod : String
  responseCode : Nat
  responseBody : String
deriving DecidableEq, Repr

/-- Modelled from the spec: one persisted cache entry, keyed by url in the
cache store. -/
structure CacheEntry where
  code : Nat
  body : String
deriving DecidableEq, Repr

/-- Modelled from the spec: the cache store interface get_item / save_response
reduced to an association list keyed by url. -/
abbrev CacheStore := List (String × CacheEntry)

/-- Result dictionary drained from the transport or synthesised from the
cache; format noted at base.py line 390: ok, grab, grab_config_backup, task,
emsg. -/
structure NetResult where
  ok : Bool
  grab : Grab
  grabConfigBackup : GrabConfig
  task : Task
  emsg : Option String
deriving DecidableEq, Repr

/-- Priority mode option of the spider constructor (base.py line 120). -/
inductive PriorityMode where
  | random
  | const
deriving DecidableEq, Repr

/-- Modelled from the spec: the transport contract reduced to what the loop
consults: its capacity (thread_number) and the number of in-flight fetches. -/
structure Transport where
  capacity : Nat
  active : Nat
deriving DecidableEq, Repr

/-- Transport.ready_for_task: true when fewer than capacity fetches are in
flight. -/
def Transport.readyForTask (tr : Transport) : Bool := tr.active < tr.capacity

/-- Transport.active_task_number: count of in-flight fetches. -/
def Transport.activeTaskNumber (tr : Transport) : Nat := tr.active

/-- Spider configuration together with the task queue (base.py __init__).
Counters and item lists are emitted as trace events rather than stored.
`randomPriority` models the value randint would draw in
generate_task_priority; `fallbackNames` models which task_<name>_fallback
methods exist on the concrete spider subclass; `taskq` is none until
setup_queue has run. -/
structure Spider where
  config : List (String × Bool)
  taskTryLimit : Nat
  networkTryLimit : Nat
  cacheEnabled : Bool
  onlyCache : Bool
  retryRebuildUserAgent : Bool
  priorityMode : PriorityMode
  randomPriority : Nat
  baseUrl : Option String
  grabConfig : GrabConfig
  fallbackNames : List String
  taskq : Option (List (Task × Nat))
deriving DecidableEq, Repr

/-- Observable events of one scheduler step: yields of the generator,
transport dispatches, fallback-handler invocations, the only_cache skip,
cache writes, counter increments (inc_count) and item records (add_item). -/
inductive Event where
  | yieldStop
  | yieldResult (res : NetResult)
  | dispatch (task : Task) (grab : GrabConfig) (backup : GrabConfig)
  | fallback (name : String)
  | skipNetwork (task : Task)
  | cacheWrite (url : String) (entry : CacheEntry)
  | countInc (key : String)
  | itemAdded (key : String) (value : String)
deriving DecidableEq, Repr

/-- Lookup in the spider config dictionary with default True, as in
self.config.get(key, True) at base.py line 561. -/
def configGet (cfg : List (String × Bool)) (key : String) : Bool :=
  match cfg.lookup key with
  | some b => b
  | none => true

/-- valid_response_code (base.py lines 429-436): whether the response could be
handled via the usual task handler. -/
def valid_response_code (code : Nat) (task : Task) : Bool :=
  (decide (code < 400) || code == 404 || task.validStatus.contains code)

/-- cache_allowed_for_task (base.py lines 399-410). -/
def cache_allowed_for_task (s : Spider) (task : Task) (grab : GrabConfig) : Bool :=
  if (!s.cacheEnabled || task.refreshCache || task.disableCache
      || grab.detectRequestMethod != "GET") then
    false
  else
    true

/-- is_valid_for_cache (base.py lines 603-617): decides whether a drained
transport result is written back into the cache store. -/
def is_valid_for_cache (s : Spider) (res : NetResult) : Bool :=
  if res.ok then
    if s.cacheEnabled then
      if res.grab.requestMethod == "GET" then
        if !res.task.disableCache then
          if valid_response_code res.grab.responseCode res.task then
            true
          else false
        else false
      else false
    else false
  else false

/-- check_task_limits (base.py lines 552-575): the per-task-name config flag,
then the task-try check, then (elif) the network-try check; the failing
branches record an item. -/
def check_task_limits (s : Spider) (task : Task) : Bool × List Event :=
  let is_valid := true
  let is_valid := if !configGet s.config ("task_" ++ task.name) then false else is_valid
  if task.taskTryCount > s.taskTryLimit then
    (false, [Event.itemAdded "too-many-task-tries" task.url])
  else if task.networkTryCount > s.networkTryLimit then
    (false, [Event.itemAdded "too-many-network-tries" task.url])
  else
    (is_valid, [])

/-- check_task_limits_deprecated (base.py lines 577-588): runs
check_task_limits and, when it failed, invokes the fallback handler for the
task name when one exists. -/
def check_task_limits_deprecated (s : Spider) (task : Task) : Bool × List Event :=
  let r := check_task_limits s task
  if !r.1 && s.fallbackNames.contains task.name then
    (r.1, r.2 ++ [Event.fallback task.name])
  else
    (r.1, r.2)

/-- DEFAULT_TASK_PRIORITY (base.py line 33). -/
def DEFAULT_TASK_PRIORITY : Nat := 100

/-- generate_task_priority (base.py lines 515-519); the randint draw of the
random mode is modelled by the randomPriority field of the spider. -/
def generate_task_priority (s : Spider) : Nat :=
  match s.priorityMode with
  | PriorityMode.const => DEFAULT_TASK_PRIORITY
  | PriorityMode.random => s.randomPriority

/-- Modelled from the spec: the str.startswith test of the Python runtime,
expressed on the code-point list of the strings. -/
def strStartsWith (s pre : String) : Bool :=
  pre.data.isPrefixOf s.data

/-- Modelled from the spec: the slice emsg[:20] of the Python runtime, a
code-point based truncation. -/
def strTruncate (s : String) (n : Nat) : String :=
  String.mk (s.data.take n)

/-- Url scheme test of add_task (base.py lines 533-534). -/
def taskUrlIsAbsolute (url : String) : Bool :=
  strStartsWith url "http://" || strStartsWith url "https://" || strStartsWith url "ftp://"

/-- Modelled from the spec: stand-in for urlparse.urljoin of the external
standard library; only its use as a resolver of a relative url against
base_url matters to the claims, not its exact string algebra. -/
def urljoin (base rel : String) : String := base ++ rel

/-- Errors raised by add_task; both constructors correspond to
SpiderMisuseError raises (base.py lines 529 and 536). -/
inductive AddTaskError where
  | misuseNoQueue
  | misuseRelativeUrl
deriving DecidableEq, Repr

/-- add_task_handler (base.py lines 549-550): put the task into the queue at
its priority. -/
def add_task_handler (s : Spider) (q : List (Task × Nat)) (task : Task) : Spider :=
  { s with taskq := some (q ++ [(task, task.priority.getD 0)]) }

/-- Tail of add_task after url resolution (base.py lines 543-547): run the
limit check and enqueue when it passed. -/
def addTaskFinish (s : Spider) (q : List (Task × Nat)) (task : Task) :
    Spider × Bool × List Event :=
  let r := check_task_limits_deprecated s task
  if r.1 then (add_task_handler s q task, true, r.2)
  else (s, false, r.2)

/-- add_task (base.py lines 521-547): raises when no queue is configured,
assigns a priority when absent, raises on a relative url without base_url,
resolves a relative url (also inside grab_config), then checks limits and
enqueues. -/
def add_task (s : Spider) (task : Task) :
    Except AddTaskError (Spider × Bool × List Event) :=
  match s.taskq with
  | none => Except.error AddTaskError.misuseNoQueue
  | some q =>
    let task :=
      match task.priority with
      | none => { task with priority := some (generate_task_priority s) }
      | some _ => task
    if !taskUrlIsAbsolute task.url then
      match s.baseUrl with
      | none => Except.error AddTaskError.misuseRelativeUrl
      | some base =>
        let newUrl := urljoin base task.url
        let task :=
          { task with
            url := newUrl
            grabConfig :=
              match task.grabConfig with
              | some g => some { g with url := newUrl }
              | none => none }
        Except.ok (addTaskFinish s q task)
    else
      Except.ok (addTaskFinish s q task)

/-- Counter bumps performed on a task freshly pulled from the queue (base.py
lines 339-341): network_try_count is incremented, task_try_count is set to 1
when it was 0. -/
def bumpTryCounters (task : Task) : Task :=
  let t := { task with networkTryCount := task.networkTryCount + 1 }
  if t.taskTryCount = 0 then { t with taskTryCount := 1 } else t

/-- Modelled from the spec: the header dictionary produced by the
common_headers method of the external HTTP client; the client draws it
randomly, which the embedding fixes to one deterministic value. -/
def defaultCommonHeaders : List (String × String) :=
  [("Accept", "text/xml,application/xml")]

/-- Request-configuration construction for a pulled task (base.py lines
347-356): load the task grab_config when present, otherwise set the url on a
fresh spider-level configuration; then regenerate common_headers and, when
retry_rebuild_user_agent is set, clear the user agent. -/
def buildGrabConfig (s : Spider) (task : Task) : GrabConfig :=
  let g :=
    match task.grabConfig with
    | some gc => gc
    | none => { s.grabConfig with url := task.url }
  let g := { g with commonHeaders := defaultCommonHeaders }
  if s.retryRebuildUserAgent then { g with userAgent := none } else g

/-- query_cache (base.py lines 412-427) without its counter increments, which
the caller emits: look the url up in the cache store and synthesise a
successful result from the entry. -/
def query_cache (cache : CacheStore) (task : Task) (grab grabConfigBackup : GrabConfig) :
    Option NetResult :=
  match cache.lookup grab.url with
  | none => none
  | some entry =>
    some
      { ok := true
        grab :=
          { config := grab
            requestMethod := grab.detectRequestMethod
            responseCode := entry.code
            responseBody := entry.body }
        grabConfigBackup := grabConfigBackup
        task := task
        emsg := none }

/-- save_response of the cache backend (called at base.py line 395): store the
response of the grab object under the url. -/
def save_response (cache : CacheStore) (url : String) (g : Grab) : CacheStore :=
  (url, { code := g.responseCode, body := g.responseBody }) :: cache

/-- Outcome of handling one pulled task inside get_next_response: the updated
transport and the emitted events (the spider itself is only read on this
path). -/
structure PullOut where
  transport : Transport
  events : List Event
deriving DecidableEq, Repr

/-- Handling of one task pulled from the queue inside get_next_response
(base.py lines 338-379): bump the counters, run
check_task_limits_deprecated, build the request configuration and its backup,
try the cache short-circuit, and otherwise either skip the network
(only_cache) or dispatch to the transport. -/
def processPulledTask (s : Spider) (cache : CacheStore) (tr : Transport)
    (task0 : Task) : PullOut :=
  let task := bumpTryCounters task0
  let chk := check_task_limits_deprecated s task
  if !chk.1 then
    { transport := tr, events := chk.2 }
  else
    let grab := buildGrabConfig s task
    let grab_config_backup := grab
    let cache_result :=
      if cache_allowed_for_task s task grab then
        query_cache cache task grab grab_config_backup
      else none
    match cache_result with
    | some res =>
      { transport := tr
        events := chk.2 ++ [Event.countInc "request", Event.countInc "request-cache",
                            Event.yieldResult res] }
    | none =>
      if s.onlyCache then
        { transport := tr, events := chk.2 ++ [Event.skipNetwork task] }
      else
        { transport := { tr with active := tr.active + 1 }
          events := chk.2 ++ [Event.countInc "request-network",
                              Event.dispatch task grab grab_config_backup] }

/-- Modelled from the spec: get(timeout) of the priority queue backend
(grab/spider/queue_backend is not under src/): extract an entry of minimal
priority, or none when the queue is empty. -/
def queueGetAux : List (Task × Nat) → Option ((Task × Nat) × List (Task × Nat))
  | [] => none
  | (t, p) :: rest =>
    match queueGetAux rest with
    | none => some ((t, p), [])
    | some ((u, q), rest1) =>
      if p ≤ q then some ((t, p), rest) else some ((u, q), (t, p) :: rest1)

/-- Result of draining the completed transport results: the updated cache
store and the emitted events. -/
structure DrainOut where
  cache : CacheStore
  events : List Event
deriving DecidableEq, Repr

/-- Drain of transport.iterate_results (base.py lines 391-397): each result is
written to the cache when is_valid_for_cache accepts it, then yielded, then
the request counter is incremented. -/
def drainResults (s : Spider) (cache : CacheStore) : List NetResult → DrainOut
  | [] => { cache := cache, events := [] }
  | res :: rest =>
    let step :=
      if is_valid_for_cache s res then
        (save_response cache res.task.url res.grab,
          [Event.cacheWrite res.task.url
            { code := res.grab.responseCode, body := res.grab.responseBody }])
      else (cache, [])
    let d := drainResults s step.1 rest
    { cache := d.cache
      events := step.2 ++ [Event.yieldResult res, Event.countInc "request"] ++ d.events }

/-- Outcome of one iteration of the while-True loop of get_next_response. -/
structure IterOut where
  spider : Spider
  transport : Transport
  cache : CacheStore
  events : List Event
deriving DecidableEq, Repr

/-- One iteration of the while-True loop of get_next_response (base.py lines
319-397).  The completions argument lists the results the transport hands
back through iterate_results this round (their fetch outcomes are external
input).  Returns none when no task queue is configured, where the source
would crash on attribute access. -/
def get_next_response_step (s : Spider) (tr : Transport) (cache : CacheStore)
    (completions : List NetResult) : Option IterOut :=
  match s.taskq with
  | none => none
  | some q =>
    let fill : Spider × Transport × List Event :=
      if tr.readyForTask then
        match queueGetAux q with
        | none =>
          if tr.activeTaskNumber = 0 then (s, tr, [Event.yieldStop])
          else (s, tr, [])
        | some ((task, _p), rest) =>
          -- the pull path reads only the configuration of the spider, never
          -- the queue, so it is handed the spider before the pop
          let out := processPulledTask s cache tr task
          ({ s with taskq := some rest }, out.transport, out.events)
      else (s, tr, [])
    let tr2 := { fill.2.1 with active := fill.2.1.active - completions.length }
    let d := drainResults s cache completions
    some
      { spider := fill.1
        transport := tr2
        cache := d.cache
        events := fill.2.2 ++ d.events }

/-- Exception raised inside a handler or a data handler; FatalError
(grab/spider/error.py line 7) is the one kind the scheduler re-raises. -/
inductive RunExc where
  | fatalError (msg : String)
  | otherExc (className : String) (msg : String)
deriving DecidableEq, Repr

/-- Python class name of the exception. -/
def RunExc.clsName : RunExc → String
  | RunExc.fatalError _ => "FatalError"
  | RunExc.otherExc n _ => n

/-- Message of the exception. -/
def RunExc.message : RunExc → String
  | RunExc.fatalError m => m
  | RunExc.otherExc _ m => m

/-- isinstance(ex, FatalError) (base.py line 654). -/
def RunExc.isFatal : RunExc → Bool
  | RunExc.fatalError _ => true
  | RunExc.otherExc _ _ => false

/-- The SpiderMisuseError exception as seen by an except block when add_task
raises inside handler-result processing. -/
def AddTaskError.toExc : AddTaskError → RunExc
  | AddTaskError.misuseNoQueue =>
    RunExc.otherExc "SpiderMisuseError"
      "You should configure task queue before adding tasks. Use setup_queue method."
  | AddTaskError.misuseRelativeUrl =>
    RunExc.otherExc "SpiderMisuseError"
      "Could not resolve relative URL because base_url is not specified"

/-- process_handler_error (base.py lines 627-655): increments the
error-<kind> counter, records the fatal item with the task url, and re-raises
exactly when the exception is a FatalError.  The second component carries the
re-raised exception when there is one. -/
def process_handler_error (ex : RunExc) (task : Task) : List Event × Option RunExc :=
  let evs :=
    [Event.countInc ("error-" ++ ex.clsName.toLower),
      Event.itemAdded "fatal" (ex.clsName ++ "|" ++ ex.message ++ "|" ++ task.url)]
  (evs, if ex.isFatal then some ex else none)

/-- The task as rebuilt by the automatic-retry path of process_response
(base.py lines 480-484): refresh_cache forced and the request configuration
restored from the backup. -/
def retriedTask (res : NetResult) : Task :=
  { res.task with refreshCache := true, grabConfig := some res.grabConfigBackup }

/-- Behaviour of the task handler on the given response: what it returns, or
the exception it raises.  A data return carries the name of the data handler
and the exception that data handler raises, when it raises one. -/
inductive HandlerRun where
  | returnsNone
  | returnsTask (t : Task)
  | returnsData (dataName : String) (dataExc : Option RunExc)
  | raises (ex : RunExc)
deriving DecidableEq, Repr

/-- process_response (base.py lines 438-486) together with the parts of
process_handler_result (lines 488-513) that the handler return value
exercises.  rawHandler is the return value of the raw handler when one is
defined.  The third component carries an exception that propagates out of
process_response (a FatalError re-raise, or a misuse raise on the retry
path), which terminates the main loop of run. -/
def process_response (s : Spider) (res : NetResult) (rawHandler : Option Bool)
    (handlerRun : HandlerRun) : Spider × List Event × Option RunExc :=
  let process_handler := match rawHandler with | some b => b | none => true
  if !process_handler then (s, [], none)
  else if res.ok && valid_response_code res.grab.responseCode res.task then
    match handlerRun with
    | HandlerRun.returnsNone => (s, [], none)
    | HandlerRun.returnsTask t =>
      match add_task s t with
      | Except.error e =>
        let h := process_handler_error e.toExc res.task
        (s, h.1, h.2)
      | Except.ok (s1, is_valid, evs) =>
        if is_valid then (s1, evs, none)
        else (s1, evs ++ [Event.itemAdded "task-could-not-be-added" res.task.url], none)
    | HandlerRun.returnsData _ none => (s, [], none)
    | HandlerRun.returnsData _dataName (some ex) =>
      let inner := process_handler_error ex res.task
      match inner.2 with
      | none => (s, inner.1, none)
      | some ex1 =>
        let outer := process_handler_error ex1 res.task
        (s, inner.1 ++ outer.1, outer.2)
    | HandlerRun.raises ex =>
      let h := process_handler_error ex res.task
      (s, h.1, h.2)
  else
    let msg :=
      if res.ok then "HTTP " ++ toString res.grab.responseCode
      else res.emsg.getD ""
    let evs0 := [Event.countInc ("network-error-" ++ strTruncate msg 20)]
    if s.networkTryLimit > 0 then
      match add_task s (retriedTask res) with
      | Except.error e => (s, evs0, some e.toExc)
      | Except.ok (s1, _is_valid, evs1) => (s1, evs0 ++ evs1, none)
    else (s, evs0, none)

/-- The synthetic result query_cache builds for a pulled task whose url hits
the cache with the given entry. -/
def cacheHitResult (s : Spider) (task : Task) (entry : CacheEntry) : NetResult :=
  { ok := true
    grab :=
      { config := buildGrabConfig s (bumpTryCounters task)
        requestMethod := (buildGrabConfig s (bumpTryCounters task)).detectRequestMethod
        responseCode := entry.code
        responseBody := entry.body }
    grabConfigBackup := buildGrabConfig s (bumpTryCounters task)
    task := bumpTryCounters task
    emsg := none }

/-- Fixture: a minimal request configuration for concrete instances. -/
def gcfg0 : GrabConfig :=
  { url := "http://example.com/"
    method := "GET"
    userAgent := none
    commonHeaders := defaultCommonHeaders }

/-- Fixture: a completed grab object for concrete instances. -/
def grab0 : Grab :=
  { config := gcfg0
    requestMethod := "GET"
    responseCode := 200
    responseBody := "" }

/-- Fixture: a spider with the default limits and an empty queue. -/
def spider0 : Spider :=
  { config := []
    taskTryLimit := 10
    networkTryLimit := 10
    cacheEnabled := false
    onlyCache := false
    retryRebuildUserAgent := true
    priorityMode := PriorityMode.const
    randomPriority := 75
    baseUrl := none
    grabConfig := gcfg0
    fallbackNames := []
    taskq := some [] }

/-- Fixture: a task as created for an initial url. -/
def task0 : Task :=
  { name := "initial"
    url := "http://example.com/"
    priority := some 100
    networkTryCount := 0
    taskTryCount := 0
    grabConfig := none
    refreshCache := false
    disableCache := false
    validStatus := [] }

/-- Fixture: an idle transport with three streams. -/
def tr0 : Transport := { capacity := 3, active := 0 }

/-- Fixture: a spider whose config disables the initial task name and which
has a fallback handler registered for it. -/
def spiderC1 : Spider :=
  { spider0 with config := [("task_initial", false)], fallbackNames := ["initial"] }

/-- Fixture: a caching spider holding one queued task. -/
def spiderC4 : Spider :=
  { spider0 with cacheEnabled := true, taskq := some [(task0, 100)] }

/-- Fixture: a cache entry for the fixture url. -/
def entryC4 : CacheEntry := { code := 200, body := "cached" }

/-- Fixture: a cache store holding the fixture entry. -/
def cacheC4 : CacheStore := [("http://example.com/", entryC4)]

/-- Fixture: an only_cache spider holding one queued task. -/
def spiderC10 : Spider :=
  { spider0 with onlyCache := true, taskq := some [(task0, 100)] }

/-- Fixture: a spider with a low task-try limit. -/
def spiderC2 : Spider := { spider0 with taskTryLimit := 2, networkTryLimit := 3 }

/-- Fixture: a failed network result whose task exhausted its task tries but
not its network tries. -/
def resC2 : NetResult :=
  { ok := false
    grab := grab0
    grabConfigBackup := gcfg0
    task := { task0 with taskTryCount := 5, networkTryCount := 3 }
    emsg := some "connection error" }

/-- Fixture: a failed network result on a first try. -/
def resC2w : NetResult :=
  { ok := false
    grab := grab0
    grabConfigBackup := gcfg0
    task := { task0 with taskTryCount := 1, networkTryCount := 1 }
    emsg := some "timeout" }

/-- Fixture: a successful result with a valid status. -/
def resC9 : NetResult :=
  { ok := true
    grab := grab0
    grabConfigBackup := gcfg0
    task := task0
    emsg := none }

/-- Spec reading of the C1 failure condition, with a limit configured as 0
disabling the corresponding counter check; written from the claim text, to be
compared against check_task_limits. -/
def c1SpecFailCond (s : Spider) (task : Task) : Bool :=
  !configGet s.config ("task_" ++ task.name)
  || (decide (s.taskTryLimit ≠ 0) && decide (task.taskTryCount > s.taskTryLimit))
  || (decide (s.networkTryLimit ≠ 0) && decide (task.networkTryCount > s.networkTryLimit))

end GrabSpider

namespace GrabSpider

/-- The boolean verdict of check_task_limits_deprecated is the verdict of
check_task_limits. -/
lemma check_deprecated_fst (s : Spider) (task : Task) :
    (check_task_limits_deprecated s task).1 = (check_task_limits s task).1 := by
  simp only [check_task_limits_deprecated]
  split <;> rfl

/-- Every event of check_task_limits is an item record. -/
lemma mem_check_events (s : Spider) (task : Task) (e : Event)
    (h : e ∈ (check_task_limits s task).2) : ∃ k v, e = Event.itemAdded k v := by
  simp only [check_task_limits] at h
  split at h
  · simp at h; exact ⟨_, _, h⟩
  · split at h
    · simp at h; exact ⟨_, _, h⟩
    · simp at h

/-- Every event of check_task_limits_deprecated is an item record or a
fallback invocation. -/
lemma mem_deprecated_events (s : Spider) (task : Task) (e : Event)
    (h : e ∈ (check_task_limits_deprecated s task).2) :
    (∃ k v, e = Event.itemAdded k v) ∨ (∃ n, e = Event.fallback n) := by
  simp only [check_task_limits_deprecated] at h
  split at h <;> simp only at h
  · rcases List.mem_append.1 h with h1 | h1
    · exact Or.inl (mem_check_events s task e h1)
    · simp at h1; exact Or.inr ⟨_, h1⟩
  · exact Or.inl (mem_check_events s task e h)

/-- C7: for every response code and Task, the response is treated as valid for
normal handling if and only if code < 400, or code = 404, or code is a member
of the valid_status set of the Task. -/
theorem c7_valid_response_code_iff (code : Nat) (task : Task) :
    valid_response_code code task = true ↔
      (code < 400 ∨ code = 404 ∨ code ∈ task.validStatus) := by
  unfold valid_response_code
  simp [or_assoc]

/-- C5: the cache-read short-circuit is evaluated (cache_allowed_for_task
returns true) if and only if caching is globally enabled, the Task sets
neither refresh_cache nor disable_cache, and the detected request method is
GET. -/
theorem c5_cache_allowed_for_task_iff (s : Spider) (task : Task) (grab : GrabConfig) :
    cache_allowed_for_task s task grab = true ↔
      (s.cacheEnabled = true ∧ task.refreshCache = false ∧
        task.disableCache = false ∧ grab.detectRequestMethod = "GET") := by
  unfold cache_allowed_for_task
  cases hc : s.cacheEnabled <;> cases hr : task.refreshCache <;>
    cases hd : task.disableCache <;>
    by_cases hm : grab.detectRequestMethod = "GET" <;>
    simp [hm]

/-- C6: a Result drained from the Transport has its response written back
into the Cache Store if and only if its ok flag is true, caching is enabled,
the request method was GET, the Task does not set disable_cache, and the
response status is valid for the Task. -/
theorem c6_cache_write_iff (s : Spider) (cache : CacheStore) (res : NetResult) :
    (is_valid_for_cache s res = true ↔
      (res.ok = true ∧ s.cacheEnabled = true ∧ res.grab.requestMethod = "GET" ∧
        res.task.disableCache = false ∧
        valid_response_code res.grab.responseCode res.task = true)) ∧
    ((Event.cacheWrite res.task.url
        { code := res.grab.responseCode, body := res.grab.responseBody }
        ∈ (drainResults s cache [res]).events) ↔ is_valid_for_cache s res = true) := by
  constructor
  · unfold is_valid_for_cache
    cases ho : res.ok <;> cases hc : s.cacheEnabled <;>
      cases hd : res.task.disableCache <;>
      by_cases hm : res.grab.requestMethod = "GET" <;>
      cases hv : valid_response_code res.grab.responseCode res.task <;>
      simp [hm, hv]
  · cases hv : is_valid_for_cache s res <;> simp [drainResults, hv]

/-- C8: add_task fails with a Misuse error exactly when no task queue is
configured, or the url of the Task is relative and no base_url is
configured; on failure nothing is enqueued, the error being raised at the
point of the call. -/
theorem c8_add_task_misuse_iff (s : Spider) (task : Task) :
    (∃ e, add_task s task = Except.error e) ↔
      (s.taskq = none ∨
        (taskUrlIsAbsolute task.url = false ∧ s.baseUrl = none)) := by
  unfold add_task
  cases hq : s.taskq with
  | none => simp
  | some q =>
    cases hp : task.priority <;>
      cases ha : taskUrlIsAbsolute task.url <;>
        cases hb : s.baseUrl <;>
          simp [ha, hb]

/-- When the limit check fails on the bumped task, processPulledTask stops
after check_task_limits_deprecated: the transport is untouched and only the
check events are emitted. -/
lemma processPulledTask_rejected (s : Spider) (cache : CacheStore) (tr : Transport)
    (task : Task) (h : (check_task_limits s (bumpTryCounters task)).1 = false) :
    processPulledTask s cache tr task =
      { transport := tr
        events := (check_task_limits_deprecated s (bumpTryCounters task)).2 } := by
  simp only [processPulledTask]
  rw [check_deprecated_fst, h]
  simp

/-- No fallback event of the given name occurs among the item records of
check_task_limits. -/
lemma check_events_filter_fallback (s : Spider) (task : Task) (n : String) :
    (check_task_limits s task).2.filter
      (fun e => decide (e = Event.fallback n)) = [] := by
  simp only [check_task_limits]
  split <;> simp
  split <;> simp

/-- When the check fails, the fallback handler is invoked exactly once when
one is registered for the task name, and never otherwise. -/
lemma fallback_count_rejected (s : Spider) (task : Task)
    (h : (check_task_limits s task).1 = false) :
    ((check_task_limits_deprecated s task).2.filter
        (fun e => decide (e = Event.fallback task.name))).length =
      if s.fallbackNames.contains task.name then 1 else 0 := by
  simp only [check_task_limits_deprecated, h]
  cases hreg : s.fallbackNames.contains task.name <;>
    simp [hreg, List.filter_append, check_events_filter_fallback]

/-- C1 counterexample: with task_try_limit configured as 0 the code fails the
check for a task on its first try, while the claim, reading 0 as disabling
the check, requires it to pass. -/
theorem c1_counterexample :
    (check_task_limits { spider0 with taskTryLimit := 0 }
        { task0 with taskTryCount := 1, networkTryCount := 1 }).1 = false ∧
    c1SpecFailCond { spider0 with taskTryLimit := 0 }
        { task0 with taskTryCount := 1, networkTryCount := 1 } = false := by
  decide

/-- C1 amended: the limit check fails exactly when the per-task-name config
flag disables the task name, or task_try_count exceeds task_try_limit, or
network_try_count exceeds network_try_limit — with no special reading of a
limit configured as 0; on failure the pulled task is never dispatched to the
transport, nothing is yielded for it, and the fallback handler registered for
the task name, if any, is invoked exactly once. -/
theorem c1_check_limits_amended (s : Spider) (cache : CacheStore) (tr : Transport)
    (task : Task) :
    ((check_task_limits s task).1 = false ↔
      (configGet s.config ("task_" ++ task.name) = false ∨
        task.taskTryCount > s.taskTryLimit ∨
        task.networkTryCount > s.networkTryLimit)) ∧
    ((check_task_limits s (bumpTryCounters task)).1 = false →
      (processPulledTask s cache tr task).transport = tr ∧
      (∀ t g b, Event.dispatch t g b ∉ (processPulledTask s cache tr task).events) ∧
      (∀ r, Event.yieldResult r ∉ (processPulledTask s cache tr task).events) ∧
      (((processPulledTask s cache tr task).events.filter
          (fun e => decide (e = Event.fallback task.name))).length =
        if s.fallbackNames.contains task.name then 1 else 0)) := by
  constructor
  · unfold check_task_limits
    cases hf : configGet s.config ("task_" ++ task.name) <;>
      by_cases h1 : task.taskTryCount > s.taskTryLimit <;>
      by_cases h2 : task.networkTryCount > s.networkTryLimit <;>
      simp [h1, h2]
  · intro h
    rw [processPulledTask_rejected s cache tr task h]
    have hname : (bumpTryCounters task).name = task.name := by
      unfold bumpTryCounters
      by_cases h0 : task.taskTryCount = 0 <;> simp [h0]
    refine ⟨rfl, ?_, ?_, ?_⟩
    · intro t g b hmem
      rcases mem_deprecated_events _ _ _ hmem with ⟨k, v, he⟩ | ⟨n, he⟩ <;> cases he
    · intro r hmem
      rcases mem_deprecated_events _ _ _ hmem with ⟨k, v, he⟩ | ⟨n, he⟩ <;> cases he
    · have hcount := fallback_count_rejected s (bumpTryCounters task) h
      rw [hname] at hcount
      exact hcount

/-- C1 witness: a task disabled via config, with a registered fallback, is
rejected, not dispatched, and has its fallback invoked exactly once. -/
theorem c1_check_limits_amended_witness :
    (check_task_limits spiderC1 (bumpTryCounters task0)).1 = false ∧
    ((processPulledTask spiderC1 [] tr0 task0).transport = tr0 ∧
      (∀ t g b, Event.dispatch t g b ∉
        (processPulledTask spiderC1 [] tr0 task0).events) ∧
      (∀ r, Event.yieldResult r ∉
        (processPulledTask spiderC1 [] tr0 task0).events) ∧
      (((processPulledTask spiderC1 [] tr0 task0).events.filter
            (fun e => decide (e = Event.fallback task0.name))).length =
        if spiderC1.fallbackNames.contains task0.name then 1 else 0)) :=
  ⟨by decide, (c1_check_limits_amended spiderC1 [] tr0 task0).2 (by decide)⟩

/-- A non-empty queue always yields an entry. -/
lemma queueGetAux_cons (t : Task) (p : Nat) (tl : List (Task × Nat)) :
    ∃ x, queueGetAux ((t, p) :: tl) = some x := by
  simp only [queueGetAux]
  rcases queueGetAux tl with _ | ⟨⟨u, pq⟩, rest1⟩
  · exact ⟨_, rfl⟩
  · dsimp only
    split <;> exact ⟨_, rfl⟩

/-- Every event emitted while draining completed results is a cache write, a
yielded result, or the request counter. -/
lemma mem_drain_events (s : Spider) (rs : List NetResult) (cache : CacheStore)
    (e : Event) (h : e ∈ (drainResults s cache rs).events) :
    (∃ u en, e = Event.cacheWrite u en) ∨ (∃ r, e = Event.yieldResult r) ∨
      e = Event.countInc "request" := by
  induction rs generalizing cache with
  | nil => simp [drainResults] at h
  | cons r rest ih =>
    simp only [drainResults] at h
    split at h
    · dsimp only at h
      rcases List.mem_append.1 h with h1 | h1
      · rcases List.mem_append.1 h1 with h2 | h2
        · rcases List.mem_cons.1 h2 with h3 | h3
          · exact Or.inl ⟨_, _, h3⟩
          · exact absurd h3 (List.not_mem_nil e)
        · rcases List.mem_cons.1 h2 with h3 | h3
          · exact Or.inr (Or.inl ⟨_, h3⟩)
          · rcases List.mem_cons.1 h3 with h4 | h4
            · exact Or.inr (Or.inr h4)
            · exact absurd h4 (List.not_mem_nil e)
      · exact ih _ h1
    · dsimp only at h
      rcases List.mem_append.1 h with h1 | h1
      · rcases List.mem_append.1 h1 with h2 | h2
        · exact absurd h2 (List.not_mem_nil e)
        · rcases List.mem_cons.1 h2 with h3 | h3
          · exact Or.inr (Or.inl ⟨_, h3⟩)
          · rcases List.mem_cons.1 h3 with h4 | h4
            · exact Or.inr (Or.inr h4)
            · exact absurd h4 (List.not_mem_nil e)
      · exact ih _ h1

/-- The drain phase never emits the stop signal. -/
lemma drain_no_stop (s : Spider) (rs : List NetResult) (cache : CacheStore) :
    Event.yieldStop ∉ (drainResults s cache rs).events := by
  intro h
  rcases mem_drain_events s rs cache _ h with ⟨u, en, he⟩ | ⟨r, he⟩ | he <;> cases he

/-- The handling of a pulled task never emits the stop signal. -/
lemma pull_no_stop (s : Spider) (cache : CacheStore) (tr : Transport) (task : Task) :
    Event.yieldStop ∉ (processPulledTask s cache tr task).events := by
  intro hmem
  simp only [processPulledTask] at hmem
  split at hmem
  · rcases mem_deprecated_events _ _ _ hmem with ⟨k, v, he⟩ | ⟨n, he⟩ <;> cases he
  · split at hmem
    · rcases List.mem_append.1 hmem with h1 | h1
      · rcases mem_deprecated_events _ _ _ h1 with ⟨k, v, he⟩ | ⟨n, he⟩ <;> cases he
      · simp at h1
    · split at hmem <;>
        · rcases List.mem_append.1 hmem with h1 | h1
          · rcases mem_deprecated_events _ _ _ h1 with ⟨k, v, he⟩ | ⟨n, he⟩ <;> cases he
          · simp at h1

/-- Shape of a loop iteration when the transport has no free slot. -/
lemma step_not_ready (s : Spider) (tr : Transport) (cache : CacheStore)
    (completions : List NetResult) (q : List (Task × Nat))
    (hq : s.taskq = some q) (hr : tr.readyForTask = false) :
    get_next_response_step s tr cache completions =
      some { spider := s
             transport := { tr with active := tr.active - completions.length }
             cache := (drainResults s cache completions).cache
             events := (drainResults s cache completions).events } := by
  unfold get_next_response_step
  rw [hq]
  simp [hr]

/-- Shape of a loop iteration on an empty queue with an idle transport: the
stop signal is yielded. -/
lemma step_empty_stop (s : Spider) (tr : Transport) (cache : CacheStore)
    (completions : List NetResult)
    (hq : s.taskq = some []) (hr : tr.readyForTask = true) (ha : tr.active = 0) :
    get_next_response_step s tr cache completions =
      some { spider := s
             transport := { tr with active := tr.active - completions.length }
             cache := (drainResults s cache completions).cache
             events := Event.yieldStop :: (drainResults s cache completions).events } := by
  unfold get_next_response_step
  rw [hq]
  simp [hr, queueGetAux, Transport.activeTaskNumber, ha]

/-- Shape of a loop iteration on an empty queue while fetches are in flight:
no stop signal. -/
lemma step_empty_busy (s : Spider) (tr : Transport) (cache : CacheStore)
    (completions : List NetResult)
    (hq : s.taskq = some []) (hr : tr.readyForTask = true) (ha : tr.active ≠ 0) :
    get_next_response_step s tr cache completions =
      some { spider := s
             transport := { tr with active := tr.active - completions.length }
             cache := (drainResults s cache completions).cache
             events := (drainResults s cache completions).events } := by
  unfold get_next_response_step
  rw [hq]
  simp [hr, queueGetAux, Transport.activeTaskNumber, ha]

/-- Shape of a loop iteration when a task is pulled from the queue. -/
lemma step_pull (s : Spider) (tr : Transport) (cache : CacheStore)
    (completions : List NetResult) (q rest : List (Task × Nat))
    (task : Task) (p : Nat)
    (hq : s.taskq = some q) (hr : tr.readyForTask = true)
    (hget : queueGetAux q = some ((task, p), rest)) :
    get_next_response_step s tr cache completions =
      some { spider := { s with taskq := some rest }
             transport :=
               { (processPulledTask s cache tr task).transport with
                 active := (processPulledTask s cache tr task).transport.active
                   - completions.length }
             cache := (drainResults s cache completions).cache
             events := (processPulledTask s cache tr task).events ++
               (drainResults s cache completions).events } := by
  unfold get_next_response_step
  rw [hq]
  simp [hr, hget]

/-- C3: an iteration of the main loop yields the stop signal exactly when the
queue get comes up empty while the transport has no active fetch; it never
yields the stop signal while the queue is non-empty or a fetch is in
flight. -/
theorem c3_stop_signal_iff (s : Spider) (tr : Transport) (cache : CacheStore)
    (completions : List NetResult) (q : List (Task × Nat))
    (hq : s.taskq = some q) :
    ∃ out, get_next_response_step s tr cache completions = some out ∧
      (Event.yieldStop ∈ out.events ↔
        (tr.readyForTask = true ∧ q = [] ∧ tr.activeTaskNumber = 0)) := by
  cases hr : tr.readyForTask with
  | false =>
    refine ⟨_, step_not_ready s tr cache completions q hq hr, ?_⟩
    constructor
    · intro hmem
      exact absurd hmem (drain_no_stop s completions cache)
    · rintro ⟨hcontra, -, -⟩
      simp at hcontra
  | true =>
    cases q with
    | nil =>
      by_cases ha : tr.active = 0
      · refine ⟨_, step_empty_stop s tr cache completions hq hr ha, ?_⟩
        simp [Transport.activeTaskNumber, ha]
      · refine ⟨_, step_empty_busy s tr cache completions hq hr ha, ?_⟩
        constructor
        · intro hmem
          exact absurd hmem (drain_no_stop s completions cache)
        · rintro ⟨-, -, hcontra⟩
          exact absurd hcontra ha
    | cons hd tl =>
      obtain ⟨t0, p0⟩ := hd
      obtain ⟨⟨⟨task, p⟩, rest⟩, hget⟩ := queueGetAux_cons t0 p0 tl
      refine ⟨_, step_pull s tr cache completions ((t0, p0) :: tl) rest task p
        hq hr hget, ?_⟩
      constructor
      · intro hmem
        rcases List.mem_append.1 hmem with h1 | h1
        · exact absurd h1 (pull_no_stop s cache tr task)
        · exact absurd h1 (drain_no_stop s completions cache)
      · rintro ⟨-, hnil, -⟩
        cases hnil

/-- C3 witness: with an empty queue and an idle transport the iteration
yields the stop signal. -/
theorem c3_stop_signal_iff_witness :
    spider0.taskq = some [] ∧
    (∃ out, get_next_response_step spider0 tr0 [] [] = some out ∧
      (Event.yieldStop ∈ out.events ↔
        (tr0.readyForTask = true ∧ ([] : List (Task × Nat)) = [] ∧
          tr0.activeTaskNumber = 0))) :=
  ⟨rfl, c3_stop_signal_iff spider0 tr0 [] [] [] rfl⟩

/-- The network-try counter of a freshly pulled task has been incremented. -/
lemma bump_networkTryCount (task : Task) :
    (bumpTryCounters task).networkTryCount = task.networkTryCount + 1 := by
  unfold bumpTryCounters
  by_cases h0 : task.taskTryCount = 0 <;> simp [h0]

/-- Shape of the pull path on a cache hit: the transport is untouched and the
synthetic result is yielded. -/
lemma processPulledTask_cache_hit (s : Spider) (cache : CacheStore) (tr : Transport)
    (task : Task) (entry : CacheEntry)
    (hchk : (check_task_limits s (bumpTryCounters task)).1 = true)
    (hallow : cache_allowed_for_task s (bumpTryCounters task)
      (buildGrabConfig s (bumpTryCounters task)) = true)
    (hhit : cache.lookup (buildGrabConfig s (bumpTryCounters task)).url = some entry) :
    processPulledTask s cache tr task =
      { transport := tr
        events := (check_task_limits_deprecated s (bumpTryCounters task)).2 ++
          [Event.countInc "request", Event.countInc "request-cache",
            Event.yieldResult (cacheHitResult s task entry)] } := by
  simp only [processPulledTask, query_cache]
  rw [check_deprecated_fst, hchk, hallow, hhit]
  simp [cacheHitResult]

/-- Shape of the pull path when only_cache is set and the cache cannot serve
the task: the task is skipped, nothing is dispatched. -/
lemma processPulledTask_skip (s : Spider) (cache : CacheStore) (tr : Transport)
    (task : Task)
    (hchk : (check_task_limits s (bumpTryCounters task)).1 = true)
    (honly : s.onlyCache = true)
    (hmiss : cache_allowed_for_task s (bumpTryCounters task)
        (buildGrabConfig s (bumpTryCounters task)) = false ∨
      cache.lookup (buildGrabConfig s (bumpTryCounters task)).url = none) :
    processPulledTask s cache tr task =
      { transport := tr
        events := (check_task_limits_deprecated s (bumpTryCounters task)).2 ++
          [Event.skipNetwork (bumpTryCounters task)] } := by
  simp only [processPulledTask, query_cache]
  rw [check_deprecated_fst, hchk]
  rcases hmiss with hm | hm
  · rw [hm]
    simp [honly]
  · rw [hm]
    cases ha : cache_allowed_for_task s (bumpTryCounters task)
        (buildGrabConfig s (bumpTryCounters task)) <;> simp [ha, honly]

/-- C4: a cache-eligible task whose url has a cache entry is never dispatched
to the transport in its iteration; a synthetic ok result carrying the cached
response is yielded instead. -/
theorem c4_cache_hit_short_circuit (s : Spider) (tr : Transport) (cache : CacheStore)
    (completions : List NetResult) (q rest : List (Task × Nat)) (task : Task) (p : Nat)
    (entry : CacheEntry)
    (hq : s.taskq = some q) (hr : tr.readyForTask = true)
    (hget : queueGetAux q = some ((task, p), rest))
    (hchk : (check_task_limits s (bumpTryCounters task)).1 = true)
    (hallow : cache_allowed_for_task s (bumpTryCounters task)
      (buildGrabConfig s (bumpTryCounters task)) = true)
    (hhit : cache.lookup (buildGrabConfig s (bumpTryCounters task)).url = some entry) :
    ∃ out, get_next_response_step s tr cache completions = some out ∧
      (∀ t g b, Event.dispatch t g b ∉ out.events) ∧
      out.transport.active = tr.active - completions.length ∧
      Event.yieldResult (cacheHitResult s task entry) ∈ out.events ∧
      (cacheHitResult s task entry).ok = true ∧
      (cacheHitResult s task entry).grab.responseCode = entry.code ∧
      (cacheHitResult s task entry).grab.responseBody = entry.body ∧
      (cacheHitResult s task entry).task = bumpTryCounters task := by
  refine ⟨_, step_pull s tr cache completions q rest task p hq hr hget,
    ?_, ?_, ?_, rfl, rfl, rfl, rfl⟩
  · intro t g b hmem
    rcases List.mem_append.1 hmem with h1 | h1
    · rw [processPulledTask_cache_hit s cache tr task entry hchk hallow hhit] at h1
      rcases List.mem_append.1 h1 with h2 | h2
      · rcases mem_deprecated_events _ _ _ h2 with ⟨k, v, he⟩ | ⟨n, he⟩ <;> cases he
      · simp at h2
    · rcases mem_drain_events s completions cache _ h1 with ⟨u, en, he⟩ | ⟨r, he⟩ | he <;>
        cases he
  · rw [processPulledTask_cache_hit s cache tr task entry hchk hallow hhit]
  · apply List.mem_append.2
    left
    rw [processPulledTask_cache_hit s cache tr task entry hchk hallow hhit]
    simp

/-- C4 witness: the fixture caching spider serves its queued task from the
cache store without a dispatch. -/
theorem c4_cache_hit_short_circuit_witness :
    spiderC4.taskq = some [(task0, 100)] ∧
    tr0.readyForTask = true ∧
    queueGetAux [(task0, 100)] = some ((task0, 100), []) ∧
    (check_task_limits spiderC4 (bumpTryCounters task0)).1 = true ∧
    cache_allowed_for_task spiderC4 (bumpTryCounters task0)
      (buildGrabConfig spiderC4 (bumpTryCounters task0)) = true ∧
    cacheC4.lookup (buildGrabConfig spiderC4 (bumpTryCounters task0)).url = some entryC4 ∧
    (∃ out, get_next_response_step spiderC4 tr0 cacheC4 [] = some out ∧
      (∀ t g b, Event.dispatch t g b ∉ out.events) ∧
      out.transport.active = tr0.active - ([] : List NetResult).length ∧
      Event.yieldResult (cacheHitResult spiderC4 task0 entryC4) ∈ out.events ∧
      (cacheHitResult spiderC4 task0 entryC4).ok = true ∧
      (cacheHitResult spiderC4 task0 entryC4).grab.responseCode = entryC4.code ∧
      (cacheHitResult spiderC4 task0 entryC4).grab.responseBody = entryC4.body ∧
      (cacheHitResult spiderC4 task0 entryC4).task = bumpTryCounters task0) :=
  ⟨by decide, by decide, by decide, by decide, by decide, by decide,
    c4_cache_hit_short_circuit spiderC4 tr0 cacheC4 [] [(task0, 100)] [] task0 100
      entryC4 (by decide) (by decide) (by decide) (by decide) (by decide) (by decide)⟩

/-- C10: with only_cache set, a pulled task that the cache cannot serve is
silently discarded — not dispatched, not yielded, not re-enqueued — although
its network try counter was already incremented on the pull. -/
theorem c10_only_cache_discards (s : Spider) (tr : Transport) (cache : CacheStore)
    (q rest : List (Task × Nat)) (task : Task) (p : Nat)
    (hq : s.taskq = some q) (hr : tr.readyForTask = true)
    (hget : queueGetAux q = some ((task, p), rest))
    (honly : s.onlyCache = true)
    (hchk : (check_task_limits s (bumpTryCounters task)).1 = true)
    (hmiss : cache_allowed_for_task s (bumpTryCounters task)
        (buildGrabConfig s (bumpTryCounters task)) = false ∨
      cache.lookup (buildGrabConfig s (bumpTryCounters task)).url = none) :
    ∃ out, get_next_response_step s tr cache [] = some out ∧
      out.spider.taskq = some rest ∧
      out.transport = tr ∧
      (∀ t g b, Event.dispatch t g b ∉ out.events) ∧
      (∀ r, Event.yieldResult r ∉ out.events) ∧
      Event.skipNetwork (bumpTryCounters task) ∈ out.events ∧
      (bumpTryCounters task).networkTryCount = task.networkTryCount + 1 := by
  refine ⟨_, step_pull s tr cache [] q rest task p hq hr hget,
    rfl, ?_, ?_, ?_, ?_, bump_networkTryCount task⟩
  · rw [processPulledTask_skip s cache tr task hchk honly hmiss]
    rfl
  · intro t g b hmem
    rcases List.mem_append.1 hmem with h1 | h1
    · rw [processPulledTask_skip s cache tr task hchk honly hmiss] at h1
      rcases List.mem_append.1 h1 with h2 | h2
      · rcases mem_deprecated_events _ _ _ h2 with ⟨k, v, he⟩ | ⟨n, he⟩ <;> cases he
      · simp at h2
    · simp [drainResults] at h1
  · intro r hmem
    rcases List.mem_append.1 hmem with h1 | h1
    · rw [processPulledTask_skip s cache tr task hchk honly hmiss] at h1
      rcases List.mem_append.1 h1 with h2 | h2
      · rcases mem_deprecated_events _ _ _ h2 with ⟨k, v, he⟩ | ⟨n, he⟩ <;> cases he
      · simp at h2
    · simp [drainResults] at h1
  · apply List.mem_append.2
    left
    rw [processPulledTask_skip s cache tr task hchk honly hmiss]
    simp

/-- The retried task keeps the priority of the original task. -/
lemma retriedTask_priority (res : NetResult) :
    (retriedTask res).priority = res.task.priority := rfl

/-- The retried task keeps the url of the original task. -/
lemma retriedTask_url (res : NetResult) :
    (retriedTask res).url = res.task.url := rfl

/-- Request-configuration construction for a task that carries a stored
grab_config. -/
lemma buildGrabConfig_some (s : Spider) (task : Task) (gc : GrabConfig)
    (h : task.grabConfig = some gc) :
    buildGrabConfig s task =
      (if s.retryRebuildUserAgent then
        { { gc with commonHeaders := defaultCommonHeaders } with userAgent := none }
      else { gc with commonHeaders := defaultCommonHeaders }) := by
  unfold buildGrabConfig
  rw [h]

/-- Refreshing the common headers of a configuration that already carries the
regenerated headers is the identity. -/
lemma grabconfig_refresh_headers (g : GrabConfig)
    (h : g.commonHeaders = defaultCommonHeaders) :
    ({ g with commonHeaders := defaultCommonHeaders } : GrabConfig) = g := by
  cases g with
  | mk u m ua ch =>
    dsimp at h
    simp [h]

/-- Refreshing headers and clearing the user agent of a configuration that
already carries both is the identity. -/
lemma grabconfig_refresh_headers_ua (g : GrabConfig)
    (h1 : g.commonHeaders = defaultCommonHeaders) (h2 : g.userAgent = none) :
    ({ { g with commonHeaders := defaultCommonHeaders } with userAgent := none } :
      GrabConfig) = g := by
  cases g with
  | mk u m ua ch =>
    dsimp at h1 h2
    simp [h1, h2]

/-- On a queue-backed spider, adding the retried task of a failed result
enqueues it when the limit check passes. -/
lemma add_task_retried (s : Spider) (res : NetResult) (q : List (Task × Nat)) (p0 : Nat)
    (hq : s.taskq = some q)
    (habs : taskUrlIsAbsolute res.task.url = true)
    (hpr : res.task.priority = some p0)
    (hchk : (check_task_limits s (retriedTask res)).1 = true) :
    add_task s (retriedTask res) =
      Except.ok (add_task_handler s q (retriedTask res), true,
        (check_task_limits_deprecated s (retriedTask res)).2) := by
  unfold add_task
  rw [hq]
  simp only [retriedTask_priority, hpr, retriedTask_url, habs, addTaskFinish,
    check_deprecated_fst, hchk]
  simp

/-- On a queue-backed spider, adding the retried task of a failed result
leaves the spider untouched when the limit check fails. -/
lemma add_task_retried_rejected (s : Spider) (res : NetResult)
    (q : List (Task × Nat)) (p0 : Nat)
    (hq : s.taskq = some q)
    (habs : taskUrlIsAbsolute res.task.url = true)
    (hpr : res.task.priority = some p0)
    (hchk : (check_task_limits s (retriedTask res)).1 = false) :
    add_task s (retriedTask res) =
      Except.ok (s, false, (check_task_limits_deprecated s (retriedTask res)).2) := by
  unfold add_task
  rw [hq]
  simp only [retriedTask_priority, hpr, retriedTask_url, habs, addTaskFinish,
    check_deprecated_fst, hchk]
  simp

/-- C2 counterexample: a failed result whose task has not exceeded
network_try_limit but has exhausted task_try_limit is not re-enqueued — the
queue stays empty — although the claim requires a re-enqueue. -/
theorem c2_counterexample :
    resC2.ok = false ∧
    resC2.task.networkTryCount ≤ spiderC2.networkTryLimit ∧
    (process_response spiderC2 resC2 none HandlerRun.returnsNone).1.taskq = some [] := by
  decide

/-- C2 amended: for every failed Result (error or invalid status), when
network_try_limit is positive the scheduler rebuilds the task with
refresh_cache set and the request configuration restored from the
config_backup snapshot, leaves task_try_count unchanged, and submits it via
add_task; the task is enqueued exactly when it passes the limit check (in
particular when it has not exceeded network_try_limit), and the request
configuration built for the re-dispatch equals the config_backup snapshot. -/
theorem c2_retry_restores_backup (s : Spider) (res : NetResult) (rh : Option Bool)
    (hrun : HandlerRun) (q : List (Task × Nat)) (p0 : Nat)
    (hfail : res.ok = false ∨ valid_response_code res.grab.responseCode res.task = false)
    (hraw : rh ≠ some false)
    (hq : s.taskq = some q)
    (hntl : 0 < s.networkTryLimit)
    (habs : taskUrlIsAbsolute res.task.url = true)
    (hpr : res.task.priority = some p0)
    (hbk1 : res.grabConfigBackup.commonHeaders = defaultCommonHeaders)
    (hbk2 : s.retryRebuildUserAgent = true → res.grabConfigBackup.userAgent = none) :
    (retriedTask res).taskTryCount = res.task.taskTryCount ∧
    (retriedTask res).refreshCache = true ∧
    (retriedTask res).grabConfig = some res.grabConfigBackup ∧
    buildGrabConfig s (retriedTask res) = res.grabConfigBackup ∧
    ((check_task_limits s (retriedTask res)).1 = true →
      ∃ evs, process_response s res rh hrun =
        ({ s with taskq := some (q ++ [(retriedTask res, p0)]) }, evs, none)) ∧
    ((check_task_limits s (retriedTask res)).1 = false →
      ∃ evs, process_response s res rh hrun = (s, evs, none)) := by
  have hand : (res.ok && valid_response_code res.grab.responseCode res.task) = false := by
    rcases hfail with h | h <;> simp [h]
  refine ⟨rfl, rfl, rfl, ?_, ?_, ?_⟩
  · rw [buildGrabConfig_some s (retriedTask res) res.grabConfigBackup rfl]
    cases hrb : s.retryRebuildUserAgent
    · simp only [Bool.false_eq_true, if_false]
      exact grabconfig_refresh_headers res.grabConfigBackup hbk1
    · simp only [if_true]
      exact grabconfig_refresh_headers_ua res.grabConfigBackup hbk1 (hbk2 hrb)
  · intro hchk
    have hadd := add_task_retried s res q p0 hq habs hpr hchk
    have hqueue : add_task_handler s q (retriedTask res) =
        { s with taskq := some (q ++ [(retriedTask res, p0)]) } := by
      unfold add_task_handler
      rw [retriedTask_priority, hpr]
      rfl
    have hmain : process_response s res rh hrun =
        ({ s with taskq := some (q ++ [(retriedTask res, p0)]) },
          [Event.countInc ("network-error-" ++
            strTruncate
              (if res.ok then "HTTP " ++ toString res.grab.responseCode
               else res.emsg.getD "") 20)] ++
            (check_task_limits_deprecated s (retriedTask res)).2,
          none) := by
      rcases rh with _ | b
      · simp [process_response, hand, hadd, hqueue, hntl]
      · cases b
        · exact absurd rfl hraw
        · simp [process_response, hand, hadd, hqueue, hntl]
    exact ⟨_, hmain⟩
  · intro hchk
    have hadd := add_task_retried_rejected s res q p0 hq habs hpr hchk
    have hmain : process_response s res rh hrun =
        (s,
          [Event.countInc ("network-error-" ++
            strTruncate
              (if res.ok then "HTTP " ++ toString res.grab.responseCode
               else res.emsg.getD "") 20)] ++
            (check_task_limits_deprecated s (retriedTask res)).2,
          none) := by
      rcases rh with _ | b
      · simp [process_response, hand, hadd, hntl]
      · cases b
        · exact absurd rfl hraw
        · simp [process_response, hand, hadd, hntl]
    exact ⟨_, hmain⟩

/-- C2 witness: a first-try failed result is re-enqueued with refresh_cache
set and its configuration restored from the backup, and the rebuilt request
configuration equals the backup. -/
theorem c2_retry_restores_backup_witness :
    (resC2w.ok = false ∨
      valid_response_code resC2w.grab.responseCode resC2w.task = false) ∧
    (none : Option Bool) ≠ some false ∧
    spider0.taskq = some [] ∧
    0 < spider0.networkTryLimit ∧
    taskUrlIsAbsolute resC2w.task.url = true ∧
    resC2w.task.priority = some 100 ∧
    resC2w.grabConfigBackup.commonHeaders = defaultCommonHeaders ∧
    (spider0.retryRebuildUserAgent = true → resC2w.grabConfigBackup.userAgent = none) ∧
    ((retriedTask resC2w).taskTryCount = resC2w.task.taskTryCount ∧
      (retriedTask resC2w).refreshCache = true ∧
      (retriedTask resC2w).grabConfig = some resC2w.grabConfigBackup ∧
      buildGrabConfig spider0 (retriedTask resC2w) = resC2w.grabConfigBackup ∧
      ((check_task_limits spider0 (retriedTask resC2w)).1 = true →
        ∃ evs, process_response spider0 resC2w none HandlerRun.returnsNone =
          ({ spider0 with taskq := some ([] ++ [(retriedTask resC2w, 100)]) },
            evs, none)) ∧
      ((check_task_limits spider0 (retriedTask resC2w)).1 = false →
        ∃ evs, process_response spider0 resC2w none HandlerRun.returnsNone =
          (spider0, evs, none))) :=
  ⟨Or.inl (by decide), by decide, by decide, by decide, by decide, by decide,
    by decide, fun _ => by decide,
    c2_retry_restores_backup spider0 resC2w none HandlerRun.returnsNone [] 100
      (Or.inl (by decide)) (by decide) (by decide) (by decide) (by decide)
      (by decide) (by decide) (fun _ => by decide)⟩

/-- Unfolding of process_handler_error into its event list and the re-raise
decision. -/
lemma process_handler_error_eq (ex : RunExc) (task : Task) :
    process_handler_error ex task =
      ([Event.countInc ("error-" ++ ex.clsName.toLower),
        Event.itemAdded "fatal" (ex.clsName ++ "|" ++ ex.message ++ "|" ++ task.url)],
        if ex.isFatal then some ex else none) := rfl

/-- C9: an exception raised by the task handler or by a data handler is
caught: the error counter keyed by the exception kind is incremented, a
fatal-item entry carrying the task url is recorded, and processing continues
— except for the FatalError kind, which is re-raised and terminates the
loop; it is the only kind that propagates. -/
theorem c9_handler_error_policy (s : Spider) (res : NetResult) (rh : Option Bool)
    (ex : RunExc) (dataName : String)
    (hok : res.ok = true)
    (hvalid : valid_response_code res.grab.responseCode res.task = true)
    (hraw : rh ≠ some false) :
    (∃ evs prop, process_response s res rh (HandlerRun.raises ex) = (s, evs, prop) ∧
      Event.countInc ("error-" ++ ex.clsName.toLower) ∈ evs ∧
      Event.itemAdded "fatal" (ex.clsName ++ "|" ++ ex.message ++ "|" ++ res.task.url)
        ∈ evs ∧
      (prop = none ↔ ex.isFatal = false) ∧
      (ex.isFatal = true → prop = some ex)) ∧
    (∃ evs prop,
      process_response s res rh (HandlerRun.returnsData dataName (some ex)) =
        (s, evs, prop) ∧
      Event.countInc ("error-" ++ ex.clsName.toLower) ∈ evs ∧
      Event.itemAdded "fatal" (ex.clsName ++ "|" ++ ex.message ++ "|" ++ res.task.url)
        ∈ evs ∧
      (prop = none ↔ ex.isFatal = false) ∧
      (ex.isFatal = true → prop = some ex)) := by
  have hand : (res.ok && valid_response_code res.grab.responseCode res.task) = true := by
    rw [hok, hvalid]
    rfl
  constructor
  · refine ⟨(process_handler_error ex res.task).1, (process_handler_error ex res.task).2,
      ?_, ?_, ?_, ?_, ?_⟩
    · rcases rh with _ | b
      · simp [process_response, hand]
      · cases b
        · exact absurd rfl hraw
        · simp [process_response, hand]
    · rw [process_handler_error_eq]
      simp
    · rw [process_handler_error_eq]
      simp
    · rw [process_handler_error_eq]
      cases hf : ex.isFatal <;> simp [hf]
    · intro hf
      rw [process_handler_error_eq]
      simp [hf]
  · cases hf : ex.isFatal
    · refine ⟨(process_handler_error ex res.task).1, none, ?_, ?_, ?_, ?_, ?_⟩
      · rcases rh with _ | b
        · simp [process_response, hand, process_handler_error_eq, hf]
        · cases b
          · exact absurd rfl hraw
          · simp [process_response, hand, process_handler_error_eq, hf]
      · rw [process_handler_error_eq]
        simp
      · rw [process_handler_error_eq]
        simp
      · simp [hf]
      · intro hcontra
        cases hcontra
    · refine ⟨(process_handler_error ex res.task).1 ++ (process_handler_error ex res.task).1,
        some ex, ?_, ?_, ?_, ?_, ?_⟩
      · rcases rh with _ | b
        · simp [process_response, hand, process_handler_error_eq, hf]
        · cases b
          · exact absurd rfl hraw
          · simp [process_response, hand, process_handler_error_eq, hf]
      · apply List.mem_append.2
        left
        rw [process_handler_error_eq]
        simp
      · apply List.mem_append.2
        left
        rw [process_handler_error_eq]
        simp
      · simp [hf]
      · intro _
        rfl

/-- C9 witness: a ValueError raised by the task handler on a valid response
is caught and counted without stopping the loop. -/
theorem c9_handler_error_policy_witness :
    resC9.ok = true ∧
    valid_response_code resC9.grab.responseCode resC9.task = true ∧
    (none : Option Bool) ≠ some false ∧
    ((∃ evs prop, process_response spider0 resC9 none
        (HandlerRun.raises (RunExc.otherExc "ValueError" "boom")) =
          (spider0, evs, prop) ∧
      Event.countInc ("error-" ++ (RunExc.otherExc "ValueError" "boom").clsName.toLower)
        ∈ evs ∧
      Event.itemAdded "fatal"
        ((RunExc.otherExc "ValueError" "boom").clsName ++ "|" ++
          (RunExc.otherExc "ValueError" "boom").message ++ "|" ++ resC9.task.url)
        ∈ evs ∧
      (prop = none ↔ (RunExc.otherExc "ValueError" "boom").isFatal = false) ∧
      ((RunExc.otherExc "ValueError" "boom").isFatal = true →
        prop = some (RunExc.otherExc "ValueError" "boom"))) ∧
    (∃ evs prop, process_response spider0 resC9 none
        (HandlerRun.returnsData "item" (some (RunExc.otherExc "ValueError" "boom"))) =
          (spider0, evs, prop) ∧
      Event.countInc ("error-" ++ (RunExc.otherExc "ValueError" "boom").clsName.toLower)
        ∈ evs ∧
      Event.itemAdded "fatal"
        ((RunExc.otherExc "ValueError" "boom").clsName ++ "|" ++
          (RunExc.otherExc "ValueError" "boom").message ++ "|" ++ resC9.task.url)
        ∈ evs ∧
      (prop = none ↔ (RunExc.otherExc "ValueError" "boom").isFatal = false) ∧
      ((RunExc.otherExc "ValueError" "boom").isFatal = true →
        prop = some (RunExc.otherExc "ValueError" "boom")))) :=
  ⟨by decide, by decide, by decide,
    c9_handler_error_policy spider0 resC9 none (RunExc.otherExc "ValueError" "boom")
      "item" (by decide) (by decide) (by decide)⟩

/-- C10 witness: the fixture only_cache spider discards its queued task. -/
theorem c10_only_cache_discards_witness :
    spiderC10.taskq = some [(task0, 100)] ∧
    tr0.readyForTask = true ∧
    queueGetAux [(task0, 100)] = some ((task0, 100), []) ∧
    spiderC10.onlyCache = true ∧
    (check_task_limits spiderC10 (bumpTryCounters task0)).1 = true ∧
    cache_allowed_for_task spiderC10 (bumpTryCounters task0)
      (buildGrabConfig spiderC10 (bumpTryCounters task0)) = false ∧
    (∃ out, get_next_response_step spiderC10 tr0 [] [] = some out ∧
      out.spider.taskq = some [] ∧
      out.transport = tr0 ∧
      (∀ t g b, Event.dispatch t g b ∉ out.events) ∧
      (∀ r, Event.yieldResult r ∉ out.events) ∧
      Event.skipNetwork (bumpTryCounters task0) ∈ out.events ∧
      (bumpTryCounters task0).networkTryCount = task0.networkTryCount + 1) :=
  ⟨by decide, by decide, by decide, by decide, by decide, by decide,
    c10_only_cache_discards spiderC10 tr0 [] [(task0, 100)] [] task0 100
      (by decide) (by decide) (by decide) (by decide) (by decide)
      (Or.inl (by decide))⟩

end GrabSpider
